import Mathlib

set_option maxRecDepth 100000

/-!
Verification of the two source files of this repository:
`sam_app/my-sam-app/hello_world/app.py` (a cloud-function handler returning a
fixed HTML page) and `secure_share/secure_share/views.py` (a Django view helper
that asks boto3 to mint a presigned download URL).

The Python code is embedded shallowly: the handler becomes a pure Lean
function; the URL helper becomes a function parameterised by the external
boto3 signing capability, returning both the result of the signing call and an
explicit trace of the side effects (client construction, signing request) the
straight-line body performs.
-/

/-- Response record built by `lambda_handler`: the Python dict literal has
exactly the keys `statusCode`, `headers`, `body`, mirrored here as the three
fields of this structure. Headers are a list of name/value pairs. -/
structure Response where
  statusCode : Nat
  headers : List (String × String)
  body : String
  deriving DecidableEq, Repr

/-- The triple-quoted Python literal bound to `html_content` inside
`lambda_handler` (app.py lines 2-13).  The literal opens right after the
opening quotes, so the string starts with a newline, and it closes on an
indented line, so it ends with a newline followed by four spaces. -/
def html_content : String :=
  "\n<!DOCTYPE html>\n<html>\n<head>\n    <title>Novey Cloud</title>\n</head>\n<body>\n    <h1>Welcome to Django!</h1>\n    <p>This is your index.html page.</p>\n</body>\n</html>\n    "

/-- Embedding of `lambda_handler` (app.py): both parameters are accepted at
any type (the Python function never inspects them) and the fixed response
record is returned. -/
def lambda_handler {α β : Type} (event : α) (context : β) : Response :=
  Response.mk 200 [("Content-Type", "text/html")] html_content

/-- Faults the underlying runtime could inject; the handler body itself never
constructs one, which the empty inductive makes precise. -/
inductive RuntimeFault : Type

/-- Exception-aware embedding of `lambda_handler`: every operation in the body
(a string literal and a dict literal) is non-raising in Python, so the
exceptional control flow of the function is `Except.ok` of the pure result on
every input. -/
def lambda_handler_run {α β : Type} (event : α) (context : β) :
    Except RuntimeFault Response :=
  Except.ok (lambda_handler event context)

/-- `sub` occurs contiguously inside `s`. -/
def str_contains (s sub : String) : Prop :=
  ∃ l r, s = l ++ sub ++ r

/- ----------------------------------------------------------------
secure_share/secure_share/views.py
---------------------------------------------------------------- -/

/-- The process-wide Django settings the view reads (views.py lines 9-15). -/
structure Settings where
  AWS_S3_REGION_NAME : String
  AWS_ACCESS_KEY_ID : String
  AWS_SECRET_ACCESS_KEY : String
  AWS_STORAGE_BUCKET_NAME : String
  deriving DecidableEq, Repr

/-- The keyword arguments passed to `boto3.client` (views.py lines 8-12),
together with the positional service name. -/
structure ClientConfig where
  service : String
  region_name : String
  aws_access_key_id : String
  aws_secret_access_key : String
  deriving DecidableEq, Repr

/-- The `Params` dict of the signing call (views.py line 15). -/
structure PresignParams where
  Bucket : String
  Key : String
  deriving DecidableEq, Repr

/-- One signing request as issued by `s3_client.generate_presigned_url`
(views.py lines 13-17): the operation name, the `Params` dict and the
`ExpiresIn` argument. -/
structure PresignRequest where
  operation : String
  Params : PresignParams
  ExpiresIn : Int
  deriving DecidableEq, Repr

/-- The side effects the body of `generate_presigned_url` performs, in order:
constructing a storage client, and issuing a signing request through it. -/
inductive Effect : Type where
  | createClient (cfg : ClientConfig)
  | presign (req : PresignRequest)
  deriving DecidableEq, Repr

/-- Embedding of `generate_presigned_url` (views.py lines 7-17).  The external
boto3 SDK is a parameter: `boto3_client cfg` models `boto3.client('s3', ...)`
and the resulting client maps a signing request to either a URL or whatever
error the storage service raises.  The function returns the value of the
signing call together with the trace of side effects performed by the body. -/
def generate_presigned_url {ε : Type}
    (boto3_client : ClientConfig → PresignRequest → Except ε String)
    (settings : Settings) (file_key : String) (expiration : Int) :
    Except ε String × List Effect :=
  let cfg := ClientConfig.mk "s3" settings.AWS_S3_REGION_NAME
    settings.AWS_ACCESS_KEY_ID settings.AWS_SECRET_ACCESS_KEY
  let s3_client := boto3_client cfg
  let req := PresignRequest.mk "get_object"
    (PresignParams.mk settings.AWS_STORAGE_BUCKET_NAME file_key) expiration
  (s3_client req, [Effect.createClient cfg, Effect.presign req])

/-- Python gives `expiration` the default value 3600 (views.py line 7); a call
that omits the argument is a call with 3600. -/
def generate_presigned_url_default {ε : Type}
    (boto3_client : ClientConfig → PresignRequest → Except ε String)
    (settings : Settings) (file_key : String) :
    Except ε String × List Effect :=
  generate_presigned_url boto3_client settings file_key 3600

/-- Modelled from the spec: the external object-storage signing capability
`sign(bucket, key, expires_in) -> url` (spec section 6), implemented by the
boto3 SDK which lives outside this repository.  Per the spec (section 8 and
the glossary) the minted URL is a string containing the bucket name, the key
path, and an expiry parameter equal to the requested duration. -/
def spec_sign (cfg : ClientConfig) (req : PresignRequest) :
    Except String String :=
  Except.ok ("https://" ++ req.Params.Bucket ++ ".s3." ++ cfg.region_name
    ++ ".amazonaws.com/" ++ req.Params.Key
    ++ ("?X-Amz-Expires=" ++ toString req.ExpiresIn))

/-- The URL ends in an expiry query parameter equal to `e` seconds. -/
def expiry_param_is (url : String) (e : Int) : Prop :=
  ∃ p, url = p ++ ("?X-Amz-Expires=" ++ toString e)

/-- The effect is a client construction. -/
def isClientConstruction : Effect → Bool
  | Effect.createClient _ => true
  | Effect.presign _ => false

/-- The effect is a signing request. -/
def isSigningRequest : Effect → Bool
  | Effect.createClient _ => false
  | Effect.presign _ => true

/-- The effect, if it is a signing request, requests the get_object
operation. -/
def usesOnlyGetObject : Effect → Bool
  | Effect.createClient _ => true
  | Effect.presign req => req.operation == "get_object"

/- ----------------------------------------------------------------
Helper lemmas
---------------------------------------------------------------- -/

/-- String append concatenates the underlying character lists. -/
theorem string_data_append (s t : String) : (s ++ t).data = s.data ++ t.data :=
  rfl

/- ----------------------------------------------------------------
Claims
---------------------------------------------------------------- -/

/-- C1: for every invocation input, at any types whatsoever (so in particular
for empty or null event and context), `lambda_handler` returns exactly the
record with statusCode 200, the single header Content-Type: text/html, and
the fixed HTML string as body, with no other fields and no dependence on the
inputs. -/
theorem c1_fixed_response {α β : Type} (event : α) (context : β) :
    lambda_handler event context
      = Response.mk 200 [("Content-Type", "text/html")] html_content :=
  rfl

/-- C6: `lambda_handler` is deterministic and input-independent: any two
invocations, at any input types and values, return equal records, and in
particular byte-identical HTML bodies.  The embedding is a pure function, so
neither call performs any side effect. -/
theorem c6_input_independent {α β γ δ : Type}
    (e1 : α) (c1 : β) (e2 : γ) (c2 : δ) :
    lambda_handler e1 c1 = lambda_handler e2 c2
      ∧ (lambda_handler e1 c1).body = (lambda_handler e2 c2).body :=
  ⟨rfl, rfl⟩

/-- C7: `lambda_handler` has no error path: in the exception-aware embedding,
every input leads to normal termination with `Except.ok` of a response record;
no branch of the body raises. -/
theorem c7_no_error_path {α β : Type} (event : α) (context : β) :
    ∃ r : Response, lambda_handler_run event context = Except.ok r :=
  ⟨lambda_handler event context, rfl⟩

/-- C10: the fixed HTML body is not a trimmed document: it begins with a
newline followed by the doctype, it ends with `</html>`, a newline and four
spaces, its title is Novey Cloud and its heading text is Welcome to
Django!. -/
theorem c10_html_untrimmed :
    (∃ rest, html_content = "\n<!DOCTYPE html>" ++ rest)
      ∧ (∃ front, html_content = front ++ ("</html>" ++ "\n    "))
      ∧ str_contains html_content "<title>Novey Cloud</title>"
      ∧ str_contains html_content "<h1>Welcome to Django!</h1>" := by
  refine ⟨⟨"\n<html>\n<head>\n    <title>Novey Cloud</title>\n</head>\n<body>\n    <h1>Welcome to Django!</h1>\n    <p>This is your index.html page.</p>\n</body>\n</html>\n    ",
      by decide⟩,
    ⟨"\n<!DOCTYPE html>\n<html>\n<head>\n    <title>Novey Cloud</title>\n</head>\n<body>\n    <h1>Welcome to Django!</h1>\n    <p>This is your index.html page.</p>\n</body>\n",
      by decide⟩, ?_, ?_⟩
  · exact ⟨"\n<!DOCTYPE html>\n<html>\n<head>\n    ",
      "\n</head>\n<body>\n    <h1>Welcome to Django!</h1>\n    <p>This is your index.html page.</p>\n</body>\n</html>\n    ",
      by decide⟩
  · exact ⟨"\n<!DOCTYPE html>\n<html>\n<head>\n    <title>Novey Cloud</title>\n</head>\n<body>\n    ",
      "\n    <p>This is your index.html page.</p>\n</body>\n</html>\n    ",
      by decide⟩

/-- C2: the expiration argument is forwarded unchanged as the ExpiresIn of the
one signing request, and a call that omits it uses 3600; consequently, against
the spec-modelled signing capability, the returned URL carries an expiry
parameter equal to the given expiration, and the URL minted for expiration 60
differs from the URL minted by the default-expiration call. -/
theorem c2_expiration_forwarded (stg : Settings) (file_key : String)
    (expiration : Int) :
    (∀ (ε : Type) (boto3_client : ClientConfig → PresignRequest → Except ε String),
        (generate_presigned_url boto3_client stg file_key expiration).2
          = [Effect.createClient (ClientConfig.mk "s3" stg.AWS_S3_REGION_NAME
               stg.AWS_ACCESS_KEY_ID stg.AWS_SECRET_ACCESS_KEY),
             Effect.presign (PresignRequest.mk "get_object"
               (PresignParams.mk stg.AWS_STORAGE_BUCKET_NAME file_key) expiration)]
          ∧ generate_presigned_url_default boto3_client stg file_key
              = generate_presigned_url boto3_client stg file_key 3600)
      ∧ (∃ u, (generate_presigned_url spec_sign stg file_key expiration).1
              = Except.ok u
            ∧ expiry_param_is u expiration)
      ∧ (generate_presigned_url spec_sign stg file_key 60).1
          ≠ (generate_presigned_url_default spec_sign stg file_key).1 := by
  refine ⟨fun ε boto3_client => ⟨rfl, rfl⟩, ⟨_, rfl, ?_⟩, ?_⟩
  · exact ⟨"https://" ++ stg.AWS_STORAGE_BUCKET_NAME ++ ".s3."
      ++ stg.AWS_S3_REGION_NAME ++ ".amazonaws.com/" ++ file_key, rfl⟩
  · intro h
    simp only [generate_presigned_url, generate_presigned_url_default,
      spec_sign, Except.ok.injEq] at h
    have h2 := congrArg String.length h
    have e60 : (toString (60 : Int)).length = 2 := by decide
    have e3600 : (toString (3600 : Int)).length = 4 := by decide
    simp only [String.length_append] at h2
    omega

/-- C3: every signing request is issued with Bucket equal to the configured
bucket name and Key equal to the given file_key, for every file_key string
whatsoever (so the helper itself performs no existence, ownership or validity
check on the key); against the spec-modelled signing capability, the URL for
reports/q1.pdf at the default expiration contains the configured bucket name,
the key path, and an expiry parameter equal to 3600. -/
theorem c3_bucket_and_key (stg : Settings) (file_key : String)
    (expiration : Int) :
    (∀ (ε : Type) (boto3_client : ClientConfig → PresignRequest → Except ε String),
        (generate_presigned_url boto3_client stg file_key expiration).2
          = [Effect.createClient (ClientConfig.mk "s3" stg.AWS_S3_REGION_NAME
               stg.AWS_ACCESS_KEY_ID stg.AWS_SECRET_ACCESS_KEY),
             Effect.presign (PresignRequest.mk "get_object"
               (PresignParams.mk stg.AWS_STORAGE_BUCKET_NAME file_key) expiration)])
      ∧ (∃ u, (generate_presigned_url_default spec_sign stg "reports/q1.pdf").1
              = Except.ok u
            ∧ str_contains u stg.AWS_STORAGE_BUCKET_NAME
            ∧ str_contains u "reports/q1.pdf"
            ∧ expiry_param_is u 3600) := by
  refine ⟨fun ε boto3_client => rfl, ⟨_, rfl, ?_, ?_, ?_⟩⟩
  · refine ⟨"https://", ".s3." ++ stg.AWS_S3_REGION_NAME ++ ".amazonaws.com/"
      ++ "reports/q1.pdf" ++ ("?X-Amz-Expires=" ++ toString (3600 : Int)), ?_⟩
    simp [String.append_assoc]
  · refine ⟨"https://" ++ stg.AWS_STORAGE_BUCKET_NAME ++ ".s3."
      ++ stg.AWS_S3_REGION_NAME ++ ".amazonaws.com/",
      "?X-Amz-Expires=" ++ toString (3600 : Int), ?_⟩
    simp [String.append_assoc]
  · exact ⟨"https://" ++ stg.AWS_STORAGE_BUCKET_NAME ++ ".s3."
      ++ stg.AWS_S3_REGION_NAME ++ ".amazonaws.com/" ++ "reports/q1.pdf", rfl⟩

/-- C4: the value of generate_presigned_url is exactly the value of the
storage-client call, so the helper raises an error precisely when the client
does, and the error it raises is the very error the client raised, with no
translation or modification. -/
theorem c4_error_propagation {ε : Type}
    (boto3_client : ClientConfig → PresignRequest → Except ε String)
    (stg : Settings) (file_key : String) (expiration : Int) :
    (generate_presigned_url boto3_client stg file_key expiration).1
        = boto3_client
            (ClientConfig.mk "s3" stg.AWS_S3_REGION_NAME
              stg.AWS_ACCESS_KEY_ID stg.AWS_SECRET_ACCESS_KEY)
            (PresignRequest.mk "get_object"
              (PresignParams.mk stg.AWS_STORAGE_BUCKET_NAME file_key) expiration)
      ∧ ∀ err : ε,
          ((generate_presigned_url boto3_client stg file_key expiration).1
              = Except.error err
            ↔ boto3_client
                (ClientConfig.mk "s3" stg.AWS_S3_REGION_NAME
                  stg.AWS_ACCESS_KEY_ID stg.AWS_SECRET_ACCESS_KEY)
                (PresignRequest.mk "get_object"
                  (PresignParams.mk stg.AWS_STORAGE_BUCKET_NAME file_key)
                  expiration)
              = Except.error err) :=
  ⟨rfl, fun err => Iff.rfl⟩

/-- C5: the effect trace of every call is exactly one client construction,
whose configuration is read from the settings passed at call time (region,
access key id, secret access key), followed by exactly one signing request and
nothing else: no reuse of a client across calls, no caching of URLs, and, the
embedding being a pure function of its arguments, no mutation of any state
shared across calls. -/
theorem c5_fresh_client_single_request {ε : Type}
    (boto3_client : ClientConfig → PresignRequest → Except ε String)
    (stg : Settings) (file_key : String) (expiration : Int) :
    (generate_presigned_url boto3_client stg file_key expiration).2
        = [Effect.createClient (ClientConfig.mk "s3" stg.AWS_S3_REGION_NAME
             stg.AWS_ACCESS_KEY_ID stg.AWS_SECRET_ACCESS_KEY),
           Effect.presign (PresignRequest.mk "get_object"
             (PresignParams.mk stg.AWS_STORAGE_BUCKET_NAME file_key) expiration)]
      ∧ List.countP isClientConstruction
          (generate_presigned_url boto3_client stg file_key expiration).2 = 1
      ∧ List.countP isSigningRequest
          (generate_presigned_url boto3_client stg file_key expiration).2 = 1 :=
  ⟨rfl, rfl, rfl⟩

/-- C8: every signing request ever issued by generate_presigned_url, for any
backend, settings, key and expiration, requests the get_object operation; the
helper can therefore only mint download URLs, never upload or delete ones. -/
theorem c8_only_get_object {ε : Type}
    (boto3_client : ClientConfig → PresignRequest → Except ε String)
    (stg : Settings) (file_key : String) (expiration : Int) :
    ((generate_presigned_url boto3_client stg file_key expiration).2.all
        usesOnlyGetObject) = true := by
  simp [generate_presigned_url, usesOnlyGetObject]

/-- C9: generate_presigned_url performs no validation of the expiration value:
for every integer expiration, the signing request carries exactly that value
as its ExpiresIn and the result is whatever the client returns, and in
particular the zero and negative values 0 and -60 are forwarded unchanged
rather than rejected. -/
theorem c9_no_expiration_validation {ε : Type}
    (boto3_client : ClientConfig → PresignRequest → Except ε String)
    (stg : Settings) (file_key : String) (expiration : Int) :
    (Effect.presign (PresignRequest.mk "get_object"
          (PresignParams.mk stg.AWS_STORAGE_BUCKET_NAME file_key) expiration)
        ∈ (generate_presigned_url boto3_client stg file_key expiration).2
      ∧ (generate_presigned_url boto3_client stg file_key expiration).1
          = boto3_client
              (ClientConfig.mk "s3" stg.AWS_S3_REGION_NAME
                stg.AWS_ACCESS_KEY_ID stg.AWS_SECRET_ACCESS_KEY)
              (PresignRequest.mk "get_object"
                (PresignParams.mk stg.AWS_STORAGE_BUCKET_NAME file_key)
                expiration))
      ∧ (generate_presigned_url boto3_client stg file_key 0).1
          = boto3_client
              (ClientConfig.mk "s3" stg.AWS_S3_REGION_NAME
                stg.AWS_ACCESS_KEY_ID stg.AWS_SECRET_ACCESS_KEY)
              (PresignRequest.mk "get_object"
                (PresignParams.mk stg.AWS_STORAGE_BUCKET_NAME file_key) 0)
      ∧ (generate_presigned_url boto3_client stg file_key (-60)).1
          = boto3_client
              (ClientConfig.mk "s3" stg.AWS_S3_REGION_NAME
                stg.AWS_ACCESS_KEY_ID stg.AWS_SECRET_ACCESS_KEY)
              (PresignRequest.mk "get_object"
                (PresignParams.mk stg.AWS_STORAGE_BUCKET_NAME file_key) (-60)) :=
  ⟨⟨List.mem_cons_of_mem _ (List.mem_cons_self _ _), rfl⟩, rfl, rfl⟩
